import Mathlib

/-!
Shallow embedding of `lib/ansible/plugins/netconf/__init__.py` (the NETCONF
plugin base class `NetconfBase` together with the `ensure_connected`
decorator), and proofs about the properties its specification states.

External collaborators (the ncclient manager `self.m`, the transport
connection `self._connection`, and the XML toolkit `fromstring` / `to_ele` /
`to_xml`) are not part of the repository; they are modelled from the spec
where indicated and injected as explicit parameters / state.
-/

set_option autoImplicit false

namespace Netconf

/-- Python substring helper: `startsWithList hay needle` is true when
`needle` is an initial segment of `hay`. -/
def startsWithList : List Char → List Char → Bool
  | _, [] => true
  | [], _ :: _ => false
  | h :: t, nh :: nt => h == nh && startsWithList t nt

/-- Python substring helper: `hasSubList hay needle` is true when `needle`
occurs contiguously somewhere in `hay`. -/
def hasSubList : List Char → List Char → Bool
  | [], needle => needle.isEmpty
  | h :: t, needle => startsWithList (h :: t) needle || hasSubList t needle

/-- Python's `needle in hay` membership test on strings (substring test),
as used by `get_device_operations` on the joined capability buffer. -/
def pyIn (needle hay : String) : Bool :=
  hasSubList hay.data needle.data

/-- The dictionary returned by `NetconfBase.get_device_operations`
(the `operations` dict), as a record: the seven boolean support flags and
the ordered `lock_datastore` list plus `supports_lock`. -/
structure Operations where
  supports_commit : Bool
  supports_defaults : Bool
  supports_confirm_commit : Bool
  supports_startup : Bool
  supports_xpath : Bool
  supports_writable_running : Bool
  supports_validate : Bool
  lock_datastore : List String
  supports_lock : Bool
  deriving Repr, DecidableEq

/-- Embedding of `NetconfBase.get_device_operations(server_capabilities)`
(source lines 334-362): join the capability strings with a newline, test the
seven URI fragments by substring membership, build `lock_datastore` in the
fixed order running/candidate/startup gated by the corresponding flags, and
set `supports_lock` from `len(lock_datastore)` truthiness. -/
def get_device_operations (server_capabilities : List String) : Operations :=
  let capabilities := String.intercalate "\n" server_capabilities
  let supports_commit := pyIn ":candidate" capabilities
  let supports_defaults := pyIn ":with-defaults" capabilities
  let supports_confirm_commit := pyIn ":confirmed-commit" capabilities
  let supports_startup := pyIn ":startup" capabilities
  let supports_xpath := pyIn ":xpath" capabilities
  let supports_writable_running := pyIn ":writable-running" capabilities
  let supports_validate := pyIn ":writable-validate" capabilities
  let lock_datastore :=
    (if supports_writable_running then ["running"] else []) ++
    (if supports_commit then ["candidate"] else []) ++
    (if supports_startup then ["startup"] else [])
  { supports_commit := supports_commit
    supports_defaults := supports_defaults
    supports_confirm_commit := supports_confirm_commit
    supports_startup := supports_startup
    supports_xpath := supports_xpath
    supports_writable_running := supports_writable_running
    supports_validate := supports_validate
    lock_datastore := lock_datastore
    supports_lock := lock_datastore.length != 0 }

/-- Modelled from the spec: the XML toolkit collaborator's element tree
(`parse(string) -> element tree`, `serialize(element tree) -> string`).
The element is kept opaque as its serialized text; none of the claims
inspect element structure. -/
structure Element where
  raw : String
  deriving Repr, DecidableEq

/-- Modelled from the spec: the XML toolkit's `serialize(element tree) ->
string` (the `to_xml` import used at source line 120). In this model the
serialization is the stored text, so it is injective and loses nothing. -/
def to_xml (e : Element) : String :=
  e.raw

/-- Modelled from the spec: the XML toolkit's parse step used by `rpc`
(`to_ele(name)` at source line 115) wrapping the rpc text as an element. -/
def to_ele (name : String) : Element :=
  ⟨name⟩

/-- Modelled from the spec: the XML toolkit's `parse(string) -> element
tree` (the `fromstring` import used by `dispatch` at source line 208). The
model keeps only what the claims need: a string is accepted and wrapped as
an element when it is bracketed by an opening and a closing angle bracket,
and rejected with a syntax error otherwise; in particular the malformed
string of the spec's Scenario C is rejected. -/
def fromstring (text : String) : Except String Element :=
  match text.data with
  | '<' :: c :: rest => if (c :: rest).getLast? == some '>' then .ok ⟨text⟩
      else .error "XMLSyntaxError"
  | _ => .error "XMLSyntaxError"

/-- A Python `filter` argument of `get_config` / `get` / `dispatch`: a single
filter expression, a list of expressions (mutable, ordered), or a tuple of
expressions (immutable, ordered). -/
inductive PyFilter where
  | single (e : String)
  | pylist (es : List String)
  | pytuple (es : List String)
  deriving Repr, DecidableEq

/-- Python immutability of the filter argument: tuples and plain expressions
are immutable, lists are mutable. -/
def isImmutableSeq : PyFilter → Bool
  | .pylist _ => false
  | _ => true

/-- The ordered filter expressions carried by a filter argument. -/
def filterElems : PyFilter → List String
  | .single e => [e]
  | .pylist es => es
  | .pytuple es => es

/-- One call forwarded to the ncclient manager `self.m`, with the exact
arguments the plugin passed (only the operations the claims need). -/
inductive ManagerCall where
  | rpcCall (obj : Element)
  | getConfigCall (source : String) (filter : Option PyFilter)
  | getCall (filter : Option PyFilter) (with_defaults : Option String)
  | dispatchCall (req : Element) (source : Option String) (filter : Option PyFilter)
  deriving Repr, DecidableEq

/-- An ncclient manager reply object: the plugin reads `resp.data_xml` when
that attribute exists (`hasattr(resp, 'data_xml')`) and `resp.xml`
otherwise. -/
structure RpcReply where
  hasDataXml : Bool
  data_xml : String
  xml : String
  deriving Repr, DecidableEq

/-- The response decode appearing in every operation:
`resp.data_xml if hasattr(resp, 'data_xml') else resp.xml`. -/
def decodeReply (r : RpcReply) : String :=
  if r.hasDataXml then r.data_xml else r.xml

/-- The ncclient `RPCError` raised when the peer rejects an RPC; its `xml`
attribute is the original error XML payload (read at source line 119). -/
structure RPCError where
  xml : Element
  deriving Repr, DecidableEq

/-- An exception surfaced by a plugin method to its caller. -/
inductive PyError where
  /-- An ncclient `RPCError` propagating uncaught out of a method. -/
  | ncRpcError (e : RPCError)
  /-- The `raise Exception(to_xml(msg))` at source line 120. -/
  | exc (message : String)
  /-- A parse failure raised by `fromstring` on malformed input. -/
  | xmlSyntaxError (message : String)
  deriving Repr, DecidableEq

/-- Modelled from the spec: the ncclient manager collaborator
(`send_rpc(requestElement) -> response | RpcError`): for each forwarded
call it either returns a reply object or raises an `RPCError`. -/
structure Manager where
  reply : ManagerCall → Except RPCError RpcReply

/-- The session state visible to this plugin: the transport's `_connected`
flag, a count of `_connect()` invocations (network session establishments),
and the ordered log of calls sent to the manager (network sends). -/
structure ConnState where
  connected : Bool
  connectCalls : Nat
  sent : List ManagerCall
  deriving Repr, DecidableEq

/-- Modelled from the spec: the Transport Session collaborator's
`self._connection._connect()` — establishes the session (network I/O),
setting the connected flag. The count records that it ran. -/
def connect (s : ConnState) : ConnState :=
  { s with connected := true, connectCalls := s.connectCalls + 1 }

/-- The connection check performed by the `ensure_connected` decorator
(source lines 43-45): `if not self._connection._connected:
self._connection._connect()`. -/
def guardStep (s : ConnState) : ConnState :=
  if !s.connected then connect s else s

/-- The `ensure_connected` decorator (source lines 41-47): run the guard
step, then the wrapped method body on the resulting state. -/
def ensure_connected {α : Type} (func : ConnState → ConnState × α)
    (s : ConnState) : ConnState × α :=
  func (guardStep s)

/-- Sending one call through the manager: the call is appended to the sent
log and the manager's reply (or `RPCError`) comes back. -/
def mSend (mgr : Manager) (s : ConnState) (c : ManagerCall) :
    ConnState × Except RPCError RpcReply :=
  ({ s with sent := s.sent ++ [c] }, mgr.reply c)

/-- Body of `NetconfBase.rpc` (source lines 107-120): build the element with
`to_ele`, forward it to `self.m.rpc`, decode the reply; on `RPCError exc`,
`raise Exception(to_xml(exc.xml))`. -/
def rpcBody (mgr : Manager) (name : String) (s : ConnState) :
    ConnState × Except PyError String :=
  let obj := to_ele name
  match mSend mgr s (.rpcCall obj) with
  | (s', .ok resp) => (s', .ok (decodeReply resp))
  | (s', .error exc) =>
      let msg := exc.xml
      (s', .error (.exc (to_xml msg)))

/-- `NetconfBase.rpc`, with its `@ensure_connected` decorator. -/
def rpc (mgr : Manager) (name : String) : ConnState → ConnState × Except PyError String :=
  ensure_connected (rpcBody mgr name)

/-- The filter normalization at source lines 131-132 and 149-150:
`if isinstance(filter, list): filter = tuple(filter)`. -/
def normalize_filter : Option PyFilter → Option PyFilter
  | some (.pylist es) => some (.pytuple es)
  | f => f

/-- The source defaulting at source lines 134-135: `if not source:
source = 'running'` — `None` and the empty string are falsy. -/
def default_source : Option String → String
  | none => "running"
  | some t => if t = "" then "running" else t

/-- Body of `NetconfBase.get_config` (source lines 122-137): normalize a
list filter to a tuple, default a falsy source to `'running'`, forward to
`self.m.get_config`, decode the reply; an `RPCError` propagates uncaught. -/
def get_configBody (mgr : Manager) (source : Option String)
    (filter : Option PyFilter) (s : ConnState) : ConnState × Except PyError String :=
  let filter := normalize_filter filter
  let source := default_source source
  match mSend mgr s (.getConfigCall source filter) with
  | (s', .ok resp) => (s', .ok (decodeReply resp))
  | (s', .error exc) => (s', .error (.ncRpcError exc))

/-- `NetconfBase.get_config`, with its `@ensure_connected` decorator. -/
def get_config (mgr : Manager) (source : Option String) (filter : Option PyFilter) :
    ConnState → ConnState × Except PyError String :=
  ensure_connected (get_configBody mgr source filter)

/-- Body of `NetconfBase.get` (source lines 139-153): normalize a list
filter to a tuple, forward to `self.m.get`, decode the reply; an `RPCError`
propagates uncaught. -/
def getBody (mgr : Manager) (filter : Option PyFilter)
    (with_defaults : Option String) (s : ConnState) : ConnState × Except PyError String :=
  let filter := normalize_filter filter
  match mSend mgr s (.getCall filter with_defaults) with
  | (s', .ok resp) => (s', .ok (decodeReply resp))
  | (s', .error exc) => (s', .error (.ncRpcError exc))

/-- `NetconfBase.get`, with its `@ensure_connected` decorator. -/
def get (mgr : Manager) (filter : Option PyFilter) (with_defaults : Option String) :
    ConnState → ConnState × Except PyError String :=
  ensure_connected (getBody mgr filter with_defaults)

/-- Body of `NetconfBase.dispatch` (source lines 196-210): parse the raw
`rpc_command` with `fromstring` — a parse failure raises before anything is
sent — then forward the element to `self.m.dispatch` and decode the reply. -/
def dispatchBody (mgr : Manager) (rpc_command : String) (source : Option String)
    (filter : Option PyFilter) (s : ConnState) : ConnState × Except PyError String :=
  match fromstring rpc_command with
  | .error e => (s, .error (.xmlSyntaxError e))
  | .ok req =>
      match mSend mgr s (.dispatchCall req source filter) with
      | (s', .ok resp) => (s', .ok (decodeReply resp))
      | (s', .error exc) => (s', .error (.ncRpcError exc))

/-- `NetconfBase.dispatch`, with its `@ensure_connected` decorator. -/
def dispatch (mgr : Manager) (rpc_command : String) (source : Option String)
    (filter : Option PyFilter) : ConnState → ConnState × Except PyError String :=
  ensure_connected (dispatchBody mgr rpc_command source filter)

/-- `NetconfBase.put_file` (source lines 316-323): the body is `pass`, so
the call returns Python `None` and raises nothing. -/
def put_file (source destination : String) : Except PyError (Option String) :=
  .ok none

/-- `NetconfBase.fetch_file` (source lines 325-332): the body is `pass`, so
the call returns Python `None` and raises nothing. -/
def fetch_file (source destination : String) : Except PyError (Option String) :=
  .ok none

/-- `NetconfBase.get_device_operations` seen as a method on the session
state: the source body never reads or writes `self` beyond its argument, so
the state passes through unchanged and the profile depends only on
`server_capabilities`. -/
def get_device_operationsM (s : ConnState) (server_capabilities : List String) :
    ConnState × Operations :=
  (s, get_device_operations server_capabilities)

/-! Helper lemmas shared by several claims. -/

theorem guardStep_sent (s : ConnState) : (guardStep s).sent = s.sent := by
  cases h : s.connected <;> simp [guardStep, connect, h]

theorem guardStep_of_connected (s : ConnState) (h : s.connected = true) :
    guardStep s = s := by
  simp [guardStep, h]

theorem get_config_sent (mgr : Manager) (src : Option String)
    (f : Option PyFilter) (s : ConnState) :
    (get_config mgr src f s).1.sent =
      s.sent ++ [ManagerCall.getConfigCall (default_source src) (normalize_filter f)] := by
  unfold get_config ensure_connected get_configBody mSend
  cases h : mgr.reply (.getConfigCall (default_source src) (normalize_filter f)) <;>
    simp [h, guardStep_sent]

theorem get_sent (mgr : Manager) (f : Option PyFilter) (wd : Option String)
    (s : ConnState) :
    (get mgr f wd s).1.sent =
      s.sent ++ [ManagerCall.getCall (normalize_filter f) wd] := by
  unfold get ensure_connected getBody mSend
  cases h : mgr.reply (.getCall (normalize_filter f) wd) <;>
    simp [h, guardStep_sent]

/-! The claims. -/

/-- C1: for every input sequence of capability strings, the profile returned
by `get_device_operations` has `"candidate" ∈ lock_datastore` iff
`supports_commit`, `"running" ∈ lock_datastore` iff
`supports_writable_running`, and `"startup" ∈ lock_datastore` iff
`supports_startup`. -/
theorem C1_lock_datastore_iff_flags (caps : List String) :
    ("candidate" ∈ (get_device_operations caps).lock_datastore ↔
        (get_device_operations caps).supports_commit = true) ∧
    ("running" ∈ (get_device_operations caps).lock_datastore ↔
        (get_device_operations caps).supports_writable_running = true) ∧
    ("startup" ∈ (get_device_operations caps).lock_datastore ↔
        (get_device_operations caps).supports_startup = true) := by
  cases hc : pyIn ":candidate" (String.intercalate "\n" caps) <;>
    cases hw : pyIn ":writable-running" (String.intercalate "\n" caps) <;>
      cases hs : pyIn ":startup" (String.intercalate "\n" caps) <;>
        simp [get_device_operations, hc, hw, hs]

/-- C2: for every input sequence of capability strings, the profile returned
by `get_device_operations` has `supports_lock = true` exactly when
`lock_datastore` is non-empty and `supports_lock = false` exactly when it is
empty. -/
theorem C2_supports_lock_iff_nonempty (caps : List String) :
    ((get_device_operations caps).supports_lock = true ↔
        (get_device_operations caps).lock_datastore ≠ []) ∧
    ((get_device_operations caps).supports_lock = false ↔
        (get_device_operations caps).lock_datastore = []) := by
  cases hc : pyIn ":candidate" (String.intercalate "\n" caps) <;>
    cases hw : pyIn ":writable-running" (String.intercalate "\n" caps) <;>
      cases hs : pyIn ":startup" (String.intercalate "\n" caps) <;>
        simp [get_device_operations, hc, hw, hs]

/-- C3: `get_device_operations` is pure and deterministic — run as a method
it leaves the session state untouched (no connect, no send, no mutation),
and two calls with identical capability input yield identical profiles
regardless of the surrounding state. -/
theorem C3_get_device_operations_pure (s₁ s₂ : ConnState)
    (caps₁ caps₂ : List String) (h : caps₁ = caps₂) :
    (get_device_operationsM s₁ caps₁).1 = s₁ ∧
    (get_device_operationsM s₁ caps₁).2 = (get_device_operationsM s₂ caps₂).2 ∧
    (get_device_operationsM s₁ caps₁).1.sent = s₁.sent ∧
    (get_device_operationsM s₁ caps₁).1.connectCalls = s₁.connectCalls := by
  subst h
  exact ⟨rfl, rfl, rfl, rfl⟩

/-- Witness for C3 at a concrete state and capability list. -/
theorem C3_get_device_operations_pure_witness :
    [":candidate"] = [":candidate"] ∧
    ((get_device_operationsM (ConnState.mk true 2 []) [":candidate"]).1 =
        ConnState.mk true 2 [] ∧
      (get_device_operationsM (ConnState.mk true 2 []) [":candidate"]).2 =
        (get_device_operationsM (ConnState.mk false 0 []) [":candidate"]).2 ∧
      (get_device_operationsM (ConnState.mk true 2 []) [":candidate"]).1.sent =
        (ConnState.mk true 2 []).sent ∧
      (get_device_operationsM (ConnState.mk true 2 []) [":candidate"]).1.connectCalls =
        (ConnState.mk true 2 []).connectCalls) :=
  ⟨rfl, C3_get_device_operations_pure (ConnState.mk true 2 [])
    (ConnState.mk false 0 []) [":candidate"] [":candidate"] rfl⟩

/-- C8: on the concrete capability list of the spec's Scenario A,
`get_device_operations` reports commit, confirmed-commit, startup and
writable-running support, `lock_datastore = ["running", "candidate",
"startup"]` in that order, and `supports_lock = true`. -/
theorem C8_scenario_A :
    (get_device_operations [":base:1.1", ":candidate", ":confirmed-commit",
        ":startup", ":writable-running"]).supports_commit = true ∧
    (get_device_operations [":base:1.1", ":candidate", ":confirmed-commit",
        ":startup", ":writable-running"]).supports_confirm_commit = true ∧
    (get_device_operations [":base:1.1", ":candidate", ":confirmed-commit",
        ":startup", ":writable-running"]).supports_startup = true ∧
    (get_device_operations [":base:1.1", ":candidate", ":confirmed-commit",
        ":startup", ":writable-running"]).supports_writable_running = true ∧
    (get_device_operations [":base:1.1", ":candidate", ":confirmed-commit",
        ":startup", ":writable-running"]).lock_datastore =
        ["running", "candidate", "startup"] ∧
    (get_device_operations [":base:1.1", ":candidate", ":confirmed-commit",
        ":startup", ":writable-running"]).supports_lock = true := by
  decide

/-- C4: the `ensure_connected` wrapper is idempotent with respect to
connection establishment — on an already-connected session the wrapped
operation runs on the untouched state (zero connect calls by the guard),
and on any state a second guard step after a first one performs no further
connect, so connect runs at most once per disconnect/reconnect cycle. -/
theorem C4_ensure_connected_idempotent {α : Type}
    (op : ConnState → ConnState × α) (s t : ConnState)
    (h : s.connected = true) :
    ensure_connected op s = op s ∧
    guardStep (guardStep t) = guardStep t ∧
    (guardStep t).connectCalls ≤ t.connectCalls + 1 := by
  refine ⟨?_, ?_, ?_⟩
  · simp [ensure_connected, guardStep, h]
  · cases ht : t.connected <;> simp [guardStep, connect, ht]
  · cases ht : t.connected <;> simp [guardStep, connect, ht]

/-- Witness for C4: a connected session and a disconnected one. -/
theorem C4_ensure_connected_idempotent_witness :
    (ConnState.mk true 0 []).connected = true ∧
    (ensure_connected (fun u => (u, (0 : Nat))) (ConnState.mk true 0 []) =
        (fun u => (u, (0 : Nat))) (ConnState.mk true 0 []) ∧
      guardStep (guardStep (ConnState.mk false 0 [])) =
        guardStep (ConnState.mk false 0 []) ∧
      (guardStep (ConnState.mk false 0 [])).connectCalls ≤
        (ConnState.mk false 0 []).connectCalls + 1) :=
  ⟨rfl, C4_ensure_connected_idempotent (fun u => (u, (0 : Nat)))
    (ConnState.mk true 0 []) (ConnState.mk false 0 []) rfl⟩

/-- A manager that accepts every call, used for concrete runs. -/
def mgrOk : Manager :=
  ⟨fun _ => .ok ⟨true, "<data/>", "<rpc-reply/>"⟩⟩

/-- A manager that rejects every call with an `RPCError` whose payload is a
fixed rpc-error element, used for concrete runs. -/
def mgrErr : Manager :=
  ⟨fun _ => .error ⟨⟨"<rpc-error><error-type>protocol</error-type></rpc-error>"⟩⟩⟩

/-- A fresh, not yet connected session state. -/
def s_disconnected : ConnState :=
  ConnState.mk false 0 []

/-- Counterexample to C5 as stated: on a disconnected session,
`dispatch "<not-xml"` does fail with the parse error and sends nothing, but
the session guard has already invoked the transport's `_connect()` once
(network I/O) before the failure — so network traffic is generated before
the failure. -/
theorem C5_counterexample :
    (dispatch mgrOk "<not-xml" none none s_disconnected).2 =
        .error (.xmlSyntaxError "XMLSyntaxError") ∧
    (dispatch mgrOk "<not-xml" none none s_disconnected).1.sent = [] ∧
    s_disconnected.connectCalls = 0 ∧
    (dispatch mgrOk "<not-xml" none none s_disconnected).1.connectCalls = 1 :=
  ⟨rfl, rfl, rfl, rfl⟩

/-- C5 (amended): for every rpc_command that fails to parse, `dispatch`
raises the parse error and no send attempt is ever made (the manager is
never invoked, the sent log is unchanged); on an already-connected session
no network I/O of any kind occurs before the failure, while on a
disconnected session the session guard's connect step may still run
first. -/
theorem C5_dispatch_malformed_no_send (mgr : Manager) (cmd : String)
    (src : Option String) (f : Option PyFilter) (s : ConnState) (e : String)
    (h : fromstring cmd = .error e) :
    (dispatch mgr cmd src f s).2 = .error (.xmlSyntaxError e) ∧
    (dispatch mgr cmd src f s).1.sent = s.sent ∧
    (s.connected = true → dispatch mgr cmd src f s = (s, .error (.xmlSyntaxError e))) := by
  refine ⟨?_, ?_, fun hc => ?_⟩ <;>
    simp [dispatch, ensure_connected, dispatchBody, h, guardStep_sent]
  rw [guardStep_of_connected s hc]

/-- Witness for C5 (amended) on a connected session and the malformed
string of Scenario C. -/
theorem C5_dispatch_malformed_no_send_witness :
    fromstring "<not-xml" = .error "XMLSyntaxError" ∧
    ((dispatch mgrOk "<not-xml" none none (ConnState.mk true 1 [])).2 =
        .error (.xmlSyntaxError "XMLSyntaxError") ∧
      (dispatch mgrOk "<not-xml" none none (ConnState.mk true 1 [])).1.sent =
        (ConnState.mk true 1 []).sent ∧
      ((ConnState.mk true 1 []).connected = true →
        dispatch mgrOk "<not-xml" none none (ConnState.mk true 1 []) =
          (ConnState.mk true 1 [], .error (.xmlSyntaxError "XMLSyntaxError")))) :=
  ⟨rfl, C5_dispatch_malformed_no_send mgrOk "<not-xml" none none
    (ConnState.mk true 1 []) "XMLSyntaxError" rfl⟩

/-- C6: when the peer rejects the RPC (the manager raises `RPCError exc`),
`rpc` surfaces an error — never a success — whose message is exactly the
serialization of the original error XML payload `exc.xml`; in this model
the serialization is the payload's full text, so nothing of the payload is
lost. -/
theorem C6_rpc_error_carries_payload (mgr : Manager) (name : String)
    (s : ConnState) (exc : RPCError)
    (h : mgr.reply (.rpcCall (to_ele name)) = .error exc) :
    (rpc mgr name s).2 = .error (.exc (to_xml exc.xml)) ∧
    to_xml exc.xml = exc.xml.raw := by
  refine ⟨?_, rfl⟩
  simp [rpc, ensure_connected, rpcBody, mSend, h]

/-- Witness for C6 on the concrete rejecting manager. -/
theorem C6_rpc_error_carries_payload_witness :
    mgrErr.reply (.rpcCall (to_ele "<get-config/>")) =
      .error ⟨⟨"<rpc-error><error-type>protocol</error-type></rpc-error>"⟩⟩ ∧
    ((rpc mgrErr "<get-config/>" s_disconnected).2 =
        .error (.exc (to_xml
          (Element.mk "<rpc-error><error-type>protocol</error-type></rpc-error>"))) ∧
      to_xml (Element.mk "<rpc-error><error-type>protocol</error-type></rpc-error>") =
        (Element.mk "<rpc-error><error-type>protocol</error-type></rpc-error>").raw) :=
  ⟨rfl, C6_rpc_error_carries_payload mgrErr "<get-config/>" s_disconnected
    ⟨⟨"<rpc-error><error-type>protocol</error-type></rpc-error>"⟩⟩ rfl⟩

/-- C7: a filter given to `get_config` or `get` as an ordered list is
normalized to a tuple — an immutable sequence — before the request is
constructed, and the request sent to the manager carries exactly the
input's filter expressions in the same order. -/
theorem C7_filter_list_normalized_to_tuple (mgr : Manager) (s : ConnState)
    (src : Option String) (es : List String) (wd : Option String) :
    (get_config mgr src (some (.pylist es)) s).1.sent =
        s.sent ++ [.getConfigCall (default_source src) (some (.pytuple es))] ∧
    (get mgr (some (.pylist es)) wd s).1.sent =
        s.sent ++ [.getCall (some (.pytuple es)) wd] ∧
    isImmutableSeq (.pytuple es) = true ∧
    filterElems (.pytuple es) = filterElems (.pylist es) := by
  refine ⟨?_, ?_, rfl, rfl⟩
  · rw [get_config_sent]
    rfl
  · rw [get_sent]
    rfl

/-- Counterexample to C9 as stated: invoked on the core class without an
override, `put_file` and `fetch_file` do not fail with a "not implemented"
error — they return `None` silently. -/
theorem C9_counterexample :
    put_file "/tmp/src.cfg" "/tmp/dst.cfg" = Except.ok none ∧
    fetch_file "/tmp/src.cfg" "/tmp/dst.cfg" = Except.ok none ∧
    ¬ (∃ e : PyError, put_file "/tmp/src.cfg" "/tmp/dst.cfg" = Except.error e) := by
  refine ⟨rfl, rfl, ?_⟩
  rintro ⟨e, he⟩
  simp [put_file] at he

/-- C9 (amended): `put_file` and `fetch_file` on the core class without a
device-specific override are silent no-ops — every invocation returns
`None` and raises no error at all, not a "not implemented" one. -/
theorem C9_file_hooks_silent_noop (source destination : String) :
    put_file source destination = Except.ok none ∧
    fetch_file source destination = Except.ok none :=
  ⟨rfl, rfl⟩

/-- C10: `get_config` substitutes the datastore name `running` for a falsy
source — both the omitted source (`None`) and the empty string — before
dispatching, and passes a truthy source through unchanged. -/
theorem C10_get_config_source_default (mgr : Manager) (f : Option PyFilter)
    (s : ConnState) (src : String) (h : src ≠ "") :
    (get_config mgr none f s).1.sent =
        s.sent ++ [.getConfigCall "running" (normalize_filter f)] ∧
    (get_config mgr (some "") f s).1.sent =
        s.sent ++ [.getConfigCall "running" (normalize_filter f)] ∧
    (get_config mgr (some src) f s).1.sent =
        s.sent ++ [.getConfigCall src (normalize_filter f)] := by
  refine ⟨?_, ?_, ?_⟩ <;> rw [get_config_sent] <;> simp [default_source, h]

/-- Witness for C10 at a concrete truthy source. -/
theorem C10_get_config_source_default_witness :
    "candidate" ≠ "" ∧
    ((get_config mgrOk none none s_disconnected).1.sent =
        s_disconnected.sent ++ [.getConfigCall "running" (normalize_filter none)] ∧
      (get_config mgrOk (some "") none s_disconnected).1.sent =
        s_disconnected.sent ++ [.getConfigCall "running" (normalize_filter none)] ∧
      (get_config mgrOk (some "candidate") none s_disconnected).1.sent =
        s_disconnected.sent ++ [.getConfigCall "candidate" (normalize_filter none)]) :=
  ⟨by decide, C10_get_config_source_default mgrOk none s_disconnected
    "candidate" (by decide)⟩

end Netconf
